import Mathlib

/-!
Verification of the hierarchical filter test engine in
`playwright_prism_retailer_point.py`: the Compliance Verifier
(`verify_filters`), the Result Collector (`get_first_and_last_page_data`,
`get_all_pages_data`) and the Hierarchical Filter Domain Explorer
(`build_complete_filter_chains`), shallowly embedded over explicit
page/UI oracles.  Browser I/O (clicks, waits) is abstracted into the
values it produces: option lists carry a visibility flag and their raw
display text, table pages are the record lists `get_table_data` yields,
and selections are boolean oracles.
-/

namespace Prism

/-- Models Python `str.lower()` (character-wise lowering). -/
def pyLower (s : String) : String := ⟨s.data.map Char.toLower⟩

/-- Models Python `str.strip()`: drop leading and trailing whitespace. -/
def pyStrip (s : String) : String :=
  ⟨((s.data.dropWhile Char.isWhitespace).reverse.dropWhile Char.isWhitespace).reverse⟩

/-- Contiguous-substring test on character lists (Python `in` on `str`). -/
def hasSub (needle : List Char) : List Char → Bool
  | [] => needle.isEmpty
  | c :: rest => needle.isPrefixOf (c :: rest) || hasSub needle rest

/-- Models Python `sub in s` for strings: `sub` occurs contiguously in `s`. -/
def pyIn (sub s : String) : Bool := hasSub sub.data s.data

/-- Models Python `str.isdigit()` (ASCII digits). -/
def pyIsDigit (s : String) : Bool := !s.isEmpty && s.data.all Char.isDigit

/-- Models Python `int(s)` on an all-digit string. -/
def pyToNat (s : String) : Nat := s.data.foldl (fun n c => n * 10 + (c.toNat - 48)) 0

/-- One row of the result table: the 7 fixed columns read by
`get_table_data`.  Dedup identity is structural equality of all fields
(the source keys its `seen` sets by `str(row_dict)`, which is injective
on these fixed-shape dicts). -/
structure Record where
  name : String
  code : String
  region : String
  area : String
  distributor : String
  territory : String
  point : String
deriving DecidableEq, Repr

/-- A complete filter chain: one selected value per dimension, in the
order the source builds the dict (`region, area, distributor, territory,
point`). -/
structure FilterChain where
  region : String
  area : String
  distributor : String
  territory : String
  point : String
deriving DecidableEq, Repr

/-- The 5 dimensions of a chain as `(filter_key, filter_value)` pairs in
the iteration order of `filters.items()` in `verify_filters` (dict
insertion order from `build_complete_filter_chains`).  Every key is in
`filter_mapping`, which maps each key to the record field of the same
name. -/
def chainItems (filters : FilterChain) : List (String × String) :=
  [("region", filters.region), ("area", filters.area),
   ("distributor", filters.distributor), ("territory", filters.territory),
   ("point", filters.point)]

/-- `record.get(filter_mapping[filter_key], '')` of the source: the
record field named by the dimension. -/
def recordField (r : Record) (dim : String) : String :=
  if dim = "region" then r.region
  else if dim = "area" then r.area
  else if dim = "distributor" then r.distributor
  else if dim = "territory" then r.territory
  else if dim = "point" then r.point
  else ""

/-- The issue message `f"{filter_key}: expected '{filter_value}', got '{record_value}'"`. -/
def issueMsg (dim fv rv : String) : String :=
  dim ++ ": expected " ++ "'" ++ fv ++ "'" ++ ", got " ++ "'" ++ rv ++ "'"

/-- One entry of the `filter_compliance` table. -/
structure ComplianceEntry where
  compliant : Nat
  total : Nat
  percentage : ℚ
deriving DecidableEq, Repr

/-- One element of `invalid_records`: the record and its issue list. -/
structure InvalidRecord where
  record : Record
  issues : List String
deriving DecidableEq, Repr

/-- The dict returned by `verify_filters`. -/
structure VerificationReport where
  total_records : Nat
  valid_records : Nat
  invalid_records : List InvalidRecord
  filter_compliance : List (String × ComplianceEntry)
deriving DecidableEq, Repr

/-- The test of line 383 of the source as applied to one dimension:
`filter_value.lower() in record_value.lower()` where `record_value` is
the record field already passed through `.strip()` (line 381). -/
def dimCompliant (fv field : String) : Bool :=
  pyIn (pyLower fv) (pyLower (pyStrip field))

/-- The body of the inner loop of `verify_filters` (lines 378-385): on a
failing dimension, clear `is_valid` and append the issue message built
from the stripped record value. -/
def checkStep (r : Record) (st : Bool × List String) (kv : String × String) :
    Bool × List String :=
  if dimCompliant kv.2 (recordField r kv.1) then st
  else (false, st.2 ++ [issueMsg kv.1 kv.2 (pyStrip (recordField r kv.1))])

/-- The per-record loop of `verify_filters` (lines 374-385): walk the
filter items in order, returning `(is_valid, record_issues)`. -/
def checkRecord (filters : FilterChain) (r : Record) : Bool × List String :=
  (chainItems filters).foldl (checkStep r) (true, [])

/-- The outer per-record tally of `verify_filters` (lines 387-393):
valid records are counted, invalid ones collected with their issues. -/
def tallyStep (filters : FilterChain) (st : Nat × List InvalidRecord)
    (r : Record) : Nat × List InvalidRecord :=
  let c := checkRecord filters r
  if c.1 then (st.1 + 1, st.2) else (st.1, st.2 ++ [⟨r, c.2⟩])

/-- `verify_filters(data, filters)` (lines 357-406).  The per-record
loop counts valid records and collects invalid ones with their issues;
the compliance table then counts, per dimension, the records whose
(unstripped) field value contains the filter value case-insensitively,
with `percentage = compliant / total * 100` and `0` on empty data. -/
def verify_filters (data : List Record) (filters : FilterChain) : VerificationReport :=
  let loop := data.foldl (tallyStep filters) (0, [])
  let compliance := (chainItems filters).map
    (fun kv =>
      let compliant :=
        (data.filter (fun r => pyIn (pyLower kv.2) (pyLower (recordField r kv.1)))).length
      (kv.1, ComplianceEntry.mk compliant data.length
        (if data ≠ [] then (compliant : ℚ) / (data.length : ℚ) * 100 else 0)))
  ⟨data.length, loop.1, loop.2, compliance⟩

/-- Spec-side restatement of the (amended) matching rule: a record is
valid iff every one of the 5 dimensions passes the case-insensitive
substring test against the stripped record field. -/
def specRecordValid (c : FilterChain) (r : Record) : Bool :=
  (chainItems c).all fun kv => dimCompliant kv.2 (recordField r kv.1)

/-- Spec-side restatement of the issue list of an invalid record: one
message per failing dimension, in dimension order, with the stripped
record value as the reported actual value. -/
def specIssues (c : FilterChain) (r : Record) : List String :=
  ((chainItems c).filter fun kv => !dimCompliant kv.2 (recordField r kv.1)).map
    fun kv => issueMsg kv.1 kv.2 (pyStrip (recordField r kv.1))

/-- Spec-side restatement of the per-dimension compliance count: the
number of records whose (raw) field value contains the filter value
case-insensitively. -/
def specCompliantCount (data : List Record) (fv dim : String) : Nat :=
  (data.filter fun r => pyIn (pyLower fv) (pyLower (recordField r dim))).length

/-! ## Result Collector

Navigation side effects are abstracted into the values they produce:
`get_table_data` on the current view yields a `List Record` (rows with
fewer than 7 cells were already skipped), so a collector run is
determined by the page contents it reads, in reading order.  `seen`
sets keyed by `str(row_dict)` are modelled as lists of `Record` with
structural membership (`str` is injective on these fixed-shape
dicts). -/

/-- One merge step of the last-page loop of
`get_first_and_last_page_data` (lines 267-270): a row is appended to
`all_data` iff its structural identity is not yet in `seen_data`. -/
def addRow (st : List Record × List Record) (row : Record) :
    List Record × List Record :=
  if row ∈ st.2 then st else (st.1 ++ [row], st.2 ++ [row])

/-- One accumulation step of `get_all_pages_data` (lines 305-311 for the
Next-button path and, identically, lines 334-340 for the numbered
fallback): the newly read page is appended WHOLE iff it is nonempty and
not all of its rows are already in `seen_data`. -/
def addPage (st : List Record × List Record) (new_data : List Record) :
    List Record × List Record :=
  if new_data ≠ [] ∧ ¬ ∀ d ∈ new_data, d ∈ st.2 then
    (st.1 ++ new_data, st.2 ++ new_data)
  else st

/-- One step of the pagination-button scan of
`get_first_and_last_page_data` (lines 230-240): keep the numeric value
of a visible all-digit label when it strictly exceeds the best so
far. -/
def bestStep (best : Option Nat) (b : Bool × String) : Option Nat :=
  if b.1 && pyIsDigit b.2 then
    match best with
    | none => some (pyToNat b.2)
    | some m => if pyToNat b.2 > m then some (pyToNat b.2) else best
  else best

/-- `last_page_number` of lines 227-240: the highest numeric label among
visible pagination buttons, `none` when no such button exists. -/
def lastPageNumber (buttons : List (Bool × String)) : Option Nat :=
  buttons.foldl bestStep none

/-- The numeric values of the visible all-digit pagination labels
(spec-side helper used to state what `lastPageNumber` maximises). -/
def visibleNumericLabels (buttons : List (Bool × String)) : List Nat :=
  (buttons.filter fun b => b.1 && pyIsDigit b.2).map fun b => pyToNat b.2

/-- The page state seen by the sampled collector: the page-1 table
content, the pagination buttons (visibility flag and label), and the
table content shown after navigating to a numbered page. -/
structure PageUI where
  firstPage : List Record
  buttons : List (Bool × String)
  pageAt : Nat → List Record

/-- `get_first_and_last_page_data` (lines 209-277): read page 1 into
`all_data`/`seen_data`, detect the highest numbered visible pagination
button; if none, return page 1 only; otherwise navigate to it and merge
its rows through `addRow`. -/
def get_first_and_last_page_data (ui : PageUI) : List Record :=
  let all_data := ui.firstPage
  let seen_data := ui.firstPage
  match lastPageNumber ui.buttons with
  | none => all_data
  | some n => ((ui.pageAt n).foldl addRow (all_data, seen_data)).1

/-- `get_all_pages_data` (lines 279-355): page 1 is read and extended
unconditionally (lines 287-289); every later page read — whether
reached through the Next button or the numbered fallback — passes
through `addPage`.  `reads` is the sequence of page contents read after
page 1, in reading order. -/
def get_all_pages_data (first : List Record) (reads : List (List Record)) :
    List Record :=
  (reads.foldl addPage (first, first)).1

/-! ## Hierarchical Filter Domain Explorer -/

/-- The `FILTER_LIMITS` configuration (lines 6-13): an optional
per-dimension cap, `none` modelling Python `None`. -/
structure FilterLimits where
  region : Option Nat
  area : Option Nat
  distributor : Option Nat
  territory : Option Nat
  point : Option Nat

/-- `if FILTER_LIMITS[dim]: options = options[:k]` (e.g. lines
420-421): Python truthiness makes both `None` and `0` skip the
truncation, so only a nonzero cap takes the first `k` options. -/
def applyLimit : Option Nat → List String → List String
  | none, xs => xs
  | some k, xs => if k ≠ 0 then xs.take k else xs

/-- One step of the option harvest of `get_dropdown_options` (lines
55-62): visible options only; the text is stripped, and empty or
already-collected texts are discarded. -/
def optStep (acc : List String) (p : Bool × String) : List String :=
  if p.1 then
    if pyStrip p.2 ≠ "" ∧ pyStrip p.2 ∉ acc then acc ++ [pyStrip p.2] else acc
  else acc

/-- `get_dropdown_options` (lines 38-84) reduced to its data content:
from the raw `(is_visible, inner_text)` pairs, collect the stripped,
non-empty, de-duplicated option texts in discovery order. -/
def get_dropdown_options (raw : List (Bool × String)) : List String :=
  raw.foldl optStep []

/-- The UI oracle driving the Explorer: raw dropdown contents for each
dimension as a function of the upstream prefix already applied, and the
boolean outcome of `select_dropdown_option` for each selection in
context.  Selections are deterministic per (prefix, value): the source
re-applies the whole prefix from scratch before every query, so one
oracle call per (prefix, value) captures each attempt. -/
structure ExplorerUI where
  rawRegions : List (Bool × String)
  rawAreas : String → List (Bool × String)
  rawDistributors : String → String → List (Bool × String)
  rawTerritories : String → String → String → List (Bool × String)
  rawPoints : String → String → String → String → List (Bool × String)
  selRegion : String → Bool
  selArea : String → String → Bool
  selDistributor : String → String → String → Bool
  selTerritory : String → String → String → String → Bool

/-- The innermost loop of `build_complete_filter_chains` (lines
476-506): re-apply region, area, distributor, then select the
territory; on any failure skip this branch (`continue`); on success
read the point options and emit one complete chain per point. -/
def territoryBody (ui : ExplorerUI) (limits : FilterLimits)
    (region area distributor territory : String) : List FilterChain :=
  if ui.selRegion region && ui.selArea region area
      && ui.selDistributor region area distributor
      && ui.selTerritory region area distributor territory then
    (applyLimit limits.point
      (get_dropdown_options
        (ui.rawPoints region area distributor territory))).map
      fun point => ⟨region, area, distributor, territory, point⟩
  else []

/-- The distributor loop (lines 457-474): re-apply region and area,
select the distributor, read the territory options, recurse. -/
def distributorBody (ui : ExplorerUI) (limits : FilterLimits)
    (region area distributor : String) : List FilterChain :=
  if ui.selRegion region && ui.selArea region area
      && ui.selDistributor region area distributor then
    (applyLimit limits.territory
      (get_dropdown_options (ui.rawTerritories region area distributor))).flatMap
      (territoryBody ui limits region area distributor)
  else []

/-- The area loop (lines 441-455): re-apply region, select the area,
read the distributor options, recurse. -/
def areaBody (ui : ExplorerUI) (limits : FilterLimits)
    (region area : String) : List FilterChain :=
  if ui.selRegion region && ui.selArea region area then
    (applyLimit limits.distributor
      (get_dropdown_options (ui.rawDistributors region area))).flatMap
      (distributorBody ui limits region area)
  else []

/-- The region loop (lines 428-439): select the region, read the area
options, recurse. -/
def regionBody (ui : ExplorerUI) (limits : FilterLimits)
    (region : String) : List FilterChain :=
  if ui.selRegion region then
    (applyLimit limits.area (get_dropdown_options (ui.rawAreas region))).flatMap
      (areaBody ui limits region)
  else []

/-- `build_complete_filter_chains` (lines 408-509): read and cap the
region options; if none, report and return zero chains; otherwise walk
every region branch and concatenate the emitted chains in discovery
order. -/
def build_complete_filter_chains (ui : ExplorerUI) (limits : FilterLimits) :
    List FilterChain :=
  if applyLimit limits.region (get_dropdown_options ui.rawRegions) = [] then []
  else
    (applyLimit limits.region (get_dropdown_options ui.rawRegions)).flatMap
      (regionBody ui limits)

/-- The per-dimension bound of the claim about cap enforcement: the cap
when one is set (nonzero), otherwise a bound on the per-context domain
size. -/
def dimBound : Option Nat → Nat → Nat
  | none, d => d
  | some k, d => if k ≠ 0 then k else d

/-- `ui` with the single selection attempt `region = r` failing
(`select_dropdown_option` returns false there), everything else
unchanged. -/
def failRegionAt (ui : ExplorerUI) (r : String) : ExplorerUI :=
  { ui with selRegion := fun x => if x = r then false else ui.selRegion x }

/-- `ui` with the selection attempt `area = a` under region `r`
failing, everything else unchanged. -/
def failAreaAt (ui : ExplorerUI) (r a : String) : ExplorerUI :=
  { ui with selArea := fun x y => if x = r ∧ y = a then false else ui.selArea x y }

/-- `ui` with the selection attempt `distributor = d` under `(r, a)`
failing, everything else unchanged. -/
def failDistributorAt (ui : ExplorerUI) (r a d : String) : ExplorerUI :=
  { ui with selDistributor := fun x y z =>
      if x = r ∧ y = a ∧ z = d then false else ui.selDistributor x y z }

/-- `ui` with the selection attempt `territory = t` under `(r, a, d)`
failing, everything else unchanged. -/
def failTerritoryAt (ui : ExplorerUI) (r a d t : String) : ExplorerUI :=
  { ui with selTerritory := fun x y z w =>
      if x = r ∧ y = a ∧ z = d ∧ w = t then false else ui.selTerritory x y z w }

/-- A concrete one-branch UI: one option per dimension, all selections
succeed. -/
def uiOneBranch : ExplorerUI :=
  ⟨[(true, "R1")], fun _ => [(true, "A1")], fun _ _ => [(true, "D1")],
   fun _ _ _ => [(true, "T1")], fun _ _ _ _ => [(true, "P1")],
   fun _ => true, fun _ _ => true, fun _ _ _ => true, fun _ _ _ _ => true⟩

/-- A concrete UI with three regions and one option per deeper
dimension, all selections succeeding. -/
def uiThreeRegions : ExplorerUI :=
  ⟨[(true, "R1"), (true, "R2"), (true, "R3")], fun _ => [(true, "A1")],
   fun _ _ => [(true, "D1")], fun _ _ _ => [(true, "T1")],
   fun _ _ _ _ => [(true, "P1")],
   fun _ => true, fun _ _ => true, fun _ _ _ => true, fun _ _ _ _ => true⟩

/-- A concrete UI with one option per upstream dimension and two
points, all selections succeeding. -/
def uiTwoPoints : ExplorerUI :=
  ⟨[(true, "R1")], fun _ => [(true, "A1")], fun _ _ => [(true, "D1")],
   fun _ _ _ => [(true, "T1")], fun _ _ _ _ => [(true, "P1"), (true, "P2")],
   fun _ => true, fun _ _ => true, fun _ _ _ => true, fun _ _ _ _ => true⟩

/-- A concrete UI whose region dropdown is empty. -/
def uiNoRegions : ExplorerUI :=
  ⟨[], fun _ => [], fun _ _ => [], fun _ _ _ => [], fun _ _ _ _ => [],
   fun _ => false, fun _ _ => false, fun _ _ _ => false, fun _ _ _ _ => false⟩

/-- `FILTER_LIMITS` with every entry `None` (the source's default). -/
def limNone : FilterLimits := ⟨none, none, none, none, none⟩

/-- `FILTER_LIMITS` with `region = 2` and everything else `None`. -/
def limRegion2 : FilterLimits := ⟨some 2, none, none, none, none⟩

/-- `FILTER_LIMITS` with `point = 1` and everything else `None`. -/
def limPoint1 : FilterLimits := ⟨none, none, none, none, some 1⟩

/-- Concrete sample rows used to exercise the collectors on explicit
inputs. -/
def rA : Record := ⟨"Alpha", "1", "R1", "A1", "D1", "T1", "P1"⟩

def rB : Record := ⟨"Beta", "2", "R1", "A1", "D1", "T1", "P2"⟩

def rC : Record := ⟨"Gamma", "3", "R1", "A1", "D1", "T1", "P3"⟩

theorem foldl_checkStep (r : Record) (l : List (String × String)) :
    ∀ (b : Bool) (out : List String),
      l.foldl (checkStep r) (b, out)
        = (b && l.all (fun kv => dimCompliant kv.2 (recordField r kv.1)),
           out ++ (l.filter fun kv => !dimCompliant kv.2 (recordField r kv.1)).map
             (fun kv => issueMsg kv.1 kv.2 (pyStrip (recordField r kv.1)))) := by
  induction l with
  | nil => intro b out; simp
  | cons kv t ih =>
      intro b out
      by_cases h : dimCompliant kv.2 (recordField r kv.1) = true
      · simp [checkStep, h, ih, Bool.and_assoc]
      · simp only [Bool.not_eq_true] at h
        simp [checkStep, h, ih, Bool.and_assoc]

theorem checkRecord_eq (c : FilterChain) (r : Record) :
    checkRecord c r = (specRecordValid c r, specIssues c r) := by
  unfold checkRecord
  rw [foldl_checkStep]
  simp [specRecordValid, specIssues]

theorem foldl_tallyStep (c : FilterChain) (data : List Record) :
    ∀ (n : Nat) (inv : List InvalidRecord),
      data.foldl (tallyStep c) (n, inv)
        = (n + (data.filter fun r => specRecordValid c r).length,
           inv ++ (data.filter fun r => !specRecordValid c r).map
             (fun r => ⟨r, specIssues c r⟩)) := by
  induction data with
  | nil => intro n inv; simp
  | cons r t ih =>
      intro n inv
      by_cases h : specRecordValid c r = true
      · simp [tallyStep, checkRecord_eq, h, ih, Nat.add_assoc, Nat.add_comm 1]
      · simp only [Bool.not_eq_true] at h
        simp [tallyStep, checkRecord_eq, h, ih]

/-- Claim C1, counterexample to the rule as stated.  The record field
`region = "Dhaka "` (trailing space) and filter value `"ka "`: the
lowercased filter value IS a substring of the lowercased raw field
value, and every other dimension trivially passes (empty filter value),
so the claim predicts a valid record — but `verify_filters` strips the
record value before matching (line 381), judges the region dimension
non-compliant, counts the record invalid, and reports the stripped
value in the issue message. -/
theorem C1_counterexample :
    pyIn (pyLower "ka ") (pyLower "Dhaka ") = true
    ∧ pyIn (pyLower "") (pyLower "") = true
    ∧ (verify_filters [⟨"", "", "Dhaka ", "", "", "", ""⟩]
        ⟨"ka ", "", "", "", ""⟩).valid_records = 0
    ∧ (verify_filters [⟨"", "", "Dhaka ", "", "", "", ""⟩]
        ⟨"ka ", "", "", "", ""⟩).invalid_records =
        [⟨⟨"", "", "Dhaka ", "", "", "", ""⟩,
          ["region: expected 'ka ', got 'Dhaka'"]⟩] := by decide

/-- Claim C1 (amended: the record field value is stripped of
leading/trailing whitespace before the substring test, exactly as in the
issue message).  For every record list and every filter chain,
`verify_filters` counts a record toward `valid_records` iff all 5
dimensions pass the case-insensitive substring test of the filter value
against the stripped record field, and each invalid record is reported
with one issue message per failing dimension,
`"<dim>: expected '<X>', got '<Y>'"` with `Y` the stripped field
value. -/
theorem C1_verifier_matching_rule (data : List Record) (c : FilterChain) :
    (verify_filters data c).valid_records
        = (data.filter fun r => specRecordValid c r).length
    ∧ (verify_filters data c).invalid_records
        = (data.filter fun r => !specRecordValid c r).map
            (fun r => ⟨r, specIssues c r⟩) := by
  unfold verify_filters
  rw [foldl_tallyStep]
  simp

/-- Claim C5: `verify_filters` on the empty record list returns exactly
zero totals, no invalid records and an all-zero compliance table over
the chain's 5 dimensions; and in general each dimension's compliance
entry is `(count of records whose field contains the filter value
case-insensitively, total, count / total * 100)`, computed independently
per dimension (the percentage formula also yields the source's `0` when
`total = 0`). -/
theorem C5_compliance_table (data : List Record) (c : FilterChain) :
    verify_filters [] c =
      ⟨0, 0, [],
        [("region", ⟨0, 0, 0⟩), ("area", ⟨0, 0, 0⟩), ("distributor", ⟨0, 0, 0⟩),
         ("territory", ⟨0, 0, 0⟩), ("point", ⟨0, 0, 0⟩)]⟩
    ∧ (verify_filters data c).filter_compliance =
        (chainItems c).map (fun kv =>
          (kv.1, ⟨specCompliantCount data kv.2 kv.1, data.length,
                  (specCompliantCount data kv.2 kv.1 : ℚ) / (data.length : ℚ) * 100⟩)) := by
  constructor
  · rfl
  · unfold verify_filters
    simp only
    apply List.map_congr_left
    intro kv _
    rcases data with _ | ⟨r, t⟩
    · simp [specCompliantCount]
    · simp [specCompliantCount]

/-- The worked example of the matching rule: filter region `Dhaka`
against record region `Dhaka North` is compliant (substring, not exact
equality). -/
theorem substring_example_compliant :
    (verify_filters
      [⟨"n", "c", "Dhaka North", "A", "D", "T", "P"⟩]
      ⟨"Dhaka", "A", "D", "T", "P"⟩).valid_records = 1 := by decide

/-- The worked example of a mismatch: filter region `Dhaka` against
record region `Chittagong` yields the documented issue message. -/
theorem substring_example_mismatch :
    (verify_filters
      [⟨"n", "c", "Chittagong", "A", "D", "T", "P"⟩]
      ⟨"Dhaka", "A", "D", "T", "P"⟩).invalid_records =
      [⟨⟨"n", "c", "Chittagong", "A", "D", "T", "P"⟩,
        ["region: expected 'Dhaka', got 'Chittagong'"]⟩] := by decide

theorem addRow_of_seen (st : List Record × List Record) (row : Record)
    (h : row ∈ st.2) : addRow st row = st := by
  simp [addRow, h]

theorem foldl_addRow_of_seen (l : List Record) :
    ∀ st : List Record × List Record, (∀ x ∈ l, x ∈ st.2) →
      l.foldl addRow st = st := by
  induction l with
  | nil => intro st _; rfl
  | cons row t ih =>
      intro st h
      rw [List.foldl_cons, addRow_of_seen st row (h row (List.mem_cons_self row t))]
      exact ih st fun x hx => h x (List.mem_cons_of_mem _ hx)

theorem foldl_addRow (last : List Record) :
    ∀ acc : List Record × List Record, acc.1 = acc.2 →
      (last.foldl addRow acc).1 = (last.foldl addRow acc).2
      ∧ (∀ x, x ∈ (last.foldl addRow acc).1 ↔ x ∈ acc.1 ∨ x ∈ last)
      ∧ (acc.1.Nodup → (last.foldl addRow acc).1.Nodup) := by
  induction last with
  | nil =>
      intro acc h
      refine ⟨h, fun x => ?_, fun hn => hn⟩
      simp
  | cons row t ih =>
      intro acc h
      by_cases hm : row ∈ acc.2
      · have hrow : row ∈ acc.1 := by rw [h]; exact hm
        obtain ⟨ih1, ih2, ih3⟩ := ih acc h
        rw [List.foldl_cons, addRow_of_seen acc row hm]
        refine ⟨ih1, fun x => ?_, ih3⟩
        rw [ih2 x]
        constructor
        · rintro (hx | hx)
          · exact Or.inl hx
          · exact Or.inr (List.mem_cons_of_mem _ hx)
        · rintro (hx | hx)
          · exact Or.inl hx
          · rcases List.mem_cons.mp hx with rfl | hx
            · exact Or.inl hrow
            · exact Or.inr hx
      · have hrow : row ∉ acc.1 := by rw [h]; exact hm
        have hstep : addRow acc row = (acc.1 ++ [row], acc.2 ++ [row]) := by
          simp [addRow, hm]
        obtain ⟨ih1, ih2, ih3⟩ :=
          ih (acc.1 ++ [row], acc.2 ++ [row]) (by rw [h])
        rw [List.foldl_cons, hstep]
        refine ⟨ih1, fun x => ?_, fun hn => ?_⟩
        · rw [ih2 x]
          simp [List.mem_append, List.mem_cons, or_assoc]
        · refine ih3 ?_
          rw [List.nodup_append]
          exact ⟨hn, List.nodup_singleton row,
            fun a ha hb => hrow (by rwa [List.mem_singleton.mp hb] at ha)⟩

theorem foldl_bestStep (buttons : List (Bool × String)) :
    ∀ best : Option Nat,
      (buttons.foldl bestStep best = none →
        best = none ∧ visibleNumericLabels buttons = [])
      ∧ (∀ n, buttons.foldl bestStep best = some n →
          (best = some n ∨ n ∈ visibleNumericLabels buttons)
          ∧ (∀ m, best = some m → m ≤ n)
          ∧ (∀ m ∈ visibleNumericLabels buttons, m ≤ n)) := by
  induction buttons with
  | nil =>
      intro best
      refine ⟨fun h => ⟨h, rfl⟩, fun n h => ?_⟩
      simp only [List.foldl_nil] at h
      subst h
      exact ⟨Or.inl rfl, fun m hm => by cases hm; exact Nat.le_refl _,
        fun m hm => by simp [visibleNumericLabels] at hm⟩
  | cons b t ih =>
      intro best
      by_cases hc : (b.1 && pyIsDigit b.2) = true
      · have hlab : visibleNumericLabels (b :: t)
            = pyToNat b.2 :: visibleNumericLabels t := by
          simp [visibleNumericLabels, hc]
        cases best with
        | none =>
          have hstep : bestStep none b = some (pyToNat b.2) := by
            simp [bestStep, hc]
          refine ⟨fun h => ?_, fun n h => ?_⟩
          · rw [List.foldl_cons, hstep] at h
            exact absurd ((ih (some (pyToNat b.2))).1 h).1 (by simp)
          · rw [List.foldl_cons, hstep] at h
            obtain ⟨h1, h2, h3⟩ := (ih (some (pyToNat b.2))).2 n h
            have hvn : pyToNat b.2 ≤ n := h2 _ rfl
            refine ⟨Or.inr ?_, fun m hm => ?_, fun m hm => ?_⟩
            · rw [hlab]
              rcases h1 with h1 | h1
              · obtain rfl : pyToNat b.2 = n := Option.some.inj h1
                exact List.mem_cons_self _ _
              · exact List.mem_cons_of_mem _ h1
            · exact Option.noConfusion hm
            · rw [hlab] at hm
              rcases List.mem_cons.mp hm with rfl | hm
              · exact hvn
              · exact h3 m hm
        | some m0 =>
          by_cases hv : pyToNat b.2 > m0
          · have hstep : bestStep (some m0) b = some (pyToNat b.2) := by
              simp [bestStep, hc, hv]
            refine ⟨fun h => ?_, fun n h => ?_⟩
            · rw [List.foldl_cons, hstep] at h
              exact absurd ((ih (some (pyToNat b.2))).1 h).1 (by simp)
            · rw [List.foldl_cons, hstep] at h
              obtain ⟨h1, h2, h3⟩ := (ih (some (pyToNat b.2))).2 n h
              have hvn : pyToNat b.2 ≤ n := h2 _ rfl
              refine ⟨?_, fun m hm => ?_, fun m hm => ?_⟩
              · refine Or.inr ?_
                rw [hlab]
                rcases h1 with h1 | h1
                · obtain rfl : pyToNat b.2 = n := Option.some.inj h1
                  exact List.mem_cons_self _ _
                · exact List.mem_cons_of_mem _ h1
              · obtain rfl : m0 = m := Option.some.inj hm
                omega
              · rw [hlab] at hm
                rcases List.mem_cons.mp hm with rfl | hm
                · exact hvn
                · exact h3 m hm
          · have hstep : bestStep (some m0) b = some m0 := by
              simp [bestStep, hc, hv]
            refine ⟨fun h => ?_, fun n h => ?_⟩
            · rw [List.foldl_cons, hstep] at h
              exact absurd ((ih (some m0)).1 h).1 (by simp)
            · rw [List.foldl_cons, hstep] at h
              obtain ⟨h1, h2, h3⟩ := (ih (some m0)).2 n h
              have hm0n : m0 ≤ n := h2 _ rfl
              refine ⟨?_, fun m hm => ?_, fun m hm => ?_⟩
              · rcases h1 with h1 | h1
                · exact Or.inl h1
                · exact Or.inr (by rw [hlab]; exact List.mem_cons_of_mem _ h1)
              · obtain rfl : m0 = m := Option.some.inj hm
                exact hm0n
              · rw [hlab] at hm
                rcases List.mem_cons.mp hm with rfl | hm
                · omega
                · exact h3 m hm
      · have hlab : visibleNumericLabels (b :: t) = visibleNumericLabels t := by
          simp only [Bool.not_eq_true] at hc
          simp [visibleNumericLabels, hc]
        have hstep : bestStep best b = best := by
          simp only [Bool.not_eq_true] at hc
          simp [bestStep, hc]
        have hfold : (b :: t).foldl bestStep best = t.foldl bestStep best := by
          rw [List.foldl_cons, hstep]
        refine ⟨fun h => ?_, fun n h => ?_⟩
        · rw [hfold] at h
          obtain ⟨h1, h2⟩ := (ih best).1 h
          exact ⟨h1, by rw [hlab, h2]⟩
        · rw [hfold] at h
          obtain ⟨h1, h2, h3⟩ := (ih best).2 n h
          exact ⟨by rw [hlab]; exact h1, h2, by rw [hlab]; exact h3⟩

theorem addPage_of_seen (st : List Record × List Record) (pg : List Record)
    (h : ∀ d ∈ pg, d ∈ st.2) : addPage st pg = st := by
  unfold addPage
  rw [if_neg]
  push_neg
  intro _
  exact h

theorem addPage_seen_mono (st : List Record × List Record) (pg : List Record) :
    ∀ x ∈ st.2, x ∈ (addPage st pg).2 := by
  intro x hx
  unfold addPage
  split
  · exact List.mem_append_left _ hx
  · exact hx

theorem addPage_fst_mono (st : List Record × List Record) (pg : List Record) :
    ∀ x ∈ st.1, x ∈ (addPage st pg).1 := by
  intro x hx
  unfold addPage
  split
  · exact List.mem_append_left _ hx
  · exact hx

theorem addPage_absorbs (st : List Record × List Record) (pg : List Record) :
    ∀ d ∈ pg, d ∈ (addPage st pg).2 := by
  intro d hd
  unfold addPage
  split_ifs with h
  · exact List.mem_append_right _ hd
  · push_neg at h
    exact h (List.ne_nil_of_mem hd) d hd

theorem foldl_addPage_seen_mono (reads : List (List Record)) :
    ∀ (st : List Record × List Record), ∀ x ∈ st.2,
      x ∈ (reads.foldl addPage st).2 := by
  induction reads with
  | nil => intro st x hx; exact hx
  | cons q t ih =>
      intro st x hx
      exact ih (addPage st q) x (addPage_seen_mono st q x hx)

theorem foldl_addPage_fst_mono (reads : List (List Record)) :
    ∀ (st : List Record × List Record), ∀ x ∈ st.1,
      x ∈ (reads.foldl addPage st).1 := by
  induction reads with
  | nil => intro st x hx; exact hx
  | cons q t ih =>
      intro st x hx
      exact ih (addPage st q) x (addPage_fst_mono st q x hx)

theorem foldl_addPage_absorbs (reads : List (List Record)) :
    ∀ (st : List Record × List Record), ∀ p ∈ reads, ∀ d ∈ p,
      d ∈ (reads.foldl addPage st).2 := by
  induction reads with
  | nil => intro st p hp; exact absurd hp (List.not_mem_nil p)
  | cons q t ih =>
      intro st p hp d hd
      rcases List.mem_cons.mp hp with rfl | hp
      · exact foldl_addPage_seen_mono t (addPage st p) d (addPage_absorbs st p d hd)
      · exact ih (addPage st q) p hp d hd

theorem foldl_addPage_sound (reads : List (List Record)) :
    ∀ (st : List Record × List Record), ∀ x ∈ (reads.foldl addPage st).1,
      x ∈ st.1 ∨ ∃ p ∈ reads, x ∈ p := by
  induction reads with
  | nil => intro st x hx; exact Or.inl hx
  | cons q t ih =>
      intro st x hx
      rcases ih (addPage st q) x hx with hx | ⟨p, hp, hxp⟩
      · unfold addPage at hx
        split at hx
        · rcases List.mem_append.mp hx with hx | hx
          · exact Or.inl hx
          · exact Or.inr ⟨q, List.mem_cons_self q t, hx⟩
        · exact Or.inl hx
      · exact Or.inr ⟨p, List.mem_cons_of_mem _ hp, hxp⟩

/-- Claim C2, counterexample.  With page 1 equal to `[rA]` and one
further read `[rA, rB]`, the page contains the unseen record `rB`, so
`get_all_pages_data` appends the WHOLE page (lines 308-310) and the
returned list contains `rA` twice: the returned sequence is not
duplicate-free. -/
theorem C2_counterexample :
    get_all_pages_data [rA] [[rA, rB]] = [rA, rA, rB]
    ∧ ¬ (get_all_pages_data [rA] [[rA, rB]]).Nodup := by decide

/-- Claim C2 (amended: deduplication in `get_all_pages_data` is
page-level, not record-level).  Page 1 is always contained in the
result, every returned record comes from page 1 or one of the page
reads, and a read whose records are all already seen contributes
nothing — but a page holding at least one unseen record is appended in
full, so individual records may repeat in the returned list. -/
theorem C2_exhaustive_accumulation (first : List Record)
    (reads : List (List Record)) :
    (∀ x ∈ first, x ∈ get_all_pages_data first reads)
    ∧ (∀ x ∈ get_all_pages_data first reads, x ∈ first ∨ ∃ p ∈ reads, x ∈ p)
    ∧ (∀ st : List Record × List Record, ∀ pg : List Record,
        (∀ d ∈ pg, d ∈ st.2) → addPage st pg = st) := by
  refine ⟨fun x hx => ?_, fun x hx => ?_, addPage_of_seen⟩
  · exact foldl_addPage_fst_mono reads (first, first) x hx
  · exact foldl_addPage_sound reads (first, first) x hx

/-- Witness for C2: a concrete run with pages `[rA]` then `[rB]`. -/
theorem C2_exhaustive_accumulation_check :
    rA ∈ get_all_pages_data [rA] [[rB]]
    ∧ (rB ∈ ([rA] : List Record) ∨ ∃ p ∈ [[rB]], rB ∈ p)
    ∧ addPage ([rA], [rA]) [rA] = ([rA], [rA]) :=
  ⟨(C2_exhaustive_accumulation [rA] [[rB]]).1 rA (by decide),
   (C2_exhaustive_accumulation [rA] [[rB]]).2.1 rB (by decide),
   (C2_exhaustive_accumulation [rA] [[rB]]).2.2 ([rA], [rA]) [rA]
     (by intro d hd; rw [List.mem_singleton.mp hd]; decide)⟩

/-- Claim C6: the sampled strategy reads page 1; when no visible
numeric pagination label exists it returns exactly the page-1 records;
otherwise it navigates to the highest numbered page (the maximum of the
visible numeric labels), and returns page 1 merged with that page,
deduplicating the merge by record structural identity: membership in
the result is exactly membership in page 1 or in the last page, and
the result is duplicate-free whenever page 1 is. -/
theorem C6_sampled_collection (ui : PageUI) :
    (lastPageNumber ui.buttons = none →
      get_first_and_last_page_data ui = ui.firstPage)
    ∧ (∀ n, lastPageNumber ui.buttons = some n →
        (n ∈ visibleNumericLabels ui.buttons
          ∧ ∀ m ∈ visibleNumericLabels ui.buttons, m ≤ n)
        ∧ (∀ x, x ∈ get_first_and_last_page_data ui ↔
            x ∈ ui.firstPage ∨ x ∈ ui.pageAt n)
        ∧ (ui.firstPage.Nodup → (get_first_and_last_page_data ui).Nodup)) := by
  constructor
  · intro h
    unfold get_first_and_last_page_data
    rw [h]
  · intro n h
    have hmax := (foldl_bestStep ui.buttons none).2 n h
    have hres : get_first_and_last_page_data ui
        = ((ui.pageAt n).foldl addRow (ui.firstPage, ui.firstPage)).1 := by
      unfold get_first_and_last_page_data
      rw [h]
    obtain ⟨_, hmem, hnd⟩ :=
      foldl_addRow (ui.pageAt n) (ui.firstPage, ui.firstPage) rfl
    refine ⟨⟨?_, hmax.2.2⟩, fun x => ?_, fun hn => ?_⟩
    · rcases hmax.1 with h1 | h1
      · exact Option.noConfusion h1
      · exact h1
    · rw [hres]; exact hmem x
    · rw [hres]; exact hnd hn

/-- Witness for C6: a single-page state returns page 1 unchanged, and a
two-page state with a visible "2" button merges in the last page. -/
theorem C6_sampled_collection_check :
    get_first_and_last_page_data ⟨[rA], [], fun _ => []⟩ = [rA]
    ∧ (rB ∈ get_first_and_last_page_data ⟨[rA], [(true, "2")], fun _ => [rB]⟩
        ↔ rB ∈ ([rA] : List Record) ∨ rB ∈ ([rB] : List Record)) :=
  ⟨(C6_sampled_collection ⟨[rA], [], fun _ => []⟩).1 (by decide),
   ((C6_sampled_collection ⟨[rA], [(true, "2")], fun _ => [rB]⟩).2 2
     (by decide)).2.1 rB⟩

/-- Claim C7, counterexample to the clause "rows whose structural
identity is already in the seen set are never added again": in the
exhaustive strategy, `rB` is already collected from page 1, yet reading
the page `[rB, rC]` (which holds the unseen `rC`) appends the whole
page, so `rB` is added a second time. -/
theorem C7_counterexample :
    rB ∈ ([rB] : List Record)
    ∧ get_all_pages_data [rB] [[rB, rC]] = [rB, rB, rC]
    ∧ (get_all_pages_data [rB] [[rB, rC]]).count rB = 2 := by decide

/-- Claim C7 (amended: in the exhaustive strategy the guarantee is
page-level, not row-level).  Re-reading content already collected
contributes no new records in either strategy: a row already in the
sampled strategy's seen set is never re-added, a page all of whose
records are already seen leaves the exhaustive accumulator unchanged,
re-reading any previously read page at the end of an exhaustive run
leaves the result unchanged, and a last page fully contained in page 1
leaves the sampled result at exactly page 1. -/
theorem C7_reread_idempotent :
    (∀ st : List Record × List Record, ∀ row, row ∈ st.2 → addRow st row = st)
    ∧ (∀ st : List Record × List Record, ∀ pg : List Record,
        (∀ d ∈ pg, d ∈ st.2) → addPage st pg = st)
    ∧ (∀ (first : List Record) (reads : List (List Record)) (p : List Record),
        p = first ∨ p ∈ reads →
        get_all_pages_data first (reads ++ [p]) = get_all_pages_data first reads)
    ∧ (∀ (ui : PageUI) (n : Nat), lastPageNumber ui.buttons = some n →
        (∀ x ∈ ui.pageAt n, x ∈ ui.firstPage) →
        get_first_and_last_page_data ui = ui.firstPage) := by
  refine ⟨addRow_of_seen, addPage_of_seen, fun first reads p hp => ?_,
    fun ui n h hsub => ?_⟩
  · unfold get_all_pages_data
    rw [List.foldl_append, List.foldl_cons, List.foldl_nil]
    rw [addPage_of_seen]
    intro d hd
    rcases hp with rfl | hp
    · exact foldl_addPage_seen_mono reads (p, p) d hd
    · exact foldl_addPage_absorbs reads (first, first) p hp d hd
  · have hres : get_first_and_last_page_data ui
        = ((ui.pageAt n).foldl addRow (ui.firstPage, ui.firstPage)).1 := by
      unfold get_first_and_last_page_data
      rw [h]
    rw [hres, foldl_addRow_of_seen (ui.pageAt n) (ui.firstPage, ui.firstPage) hsub]

/-- Witness for C7: concrete re-reads that add nothing in each mode. -/
theorem C7_reread_idempotent_check :
    addRow ([rA], [rA]) rA = ([rA], [rA])
    ∧ addPage ([rB], [rB]) [rB] = ([rB], [rB])
    ∧ get_all_pages_data [rA] ([[rB]] ++ [[rB]]) = get_all_pages_data [rA] [[rB]]
    ∧ get_first_and_last_page_data ⟨[rA], [(true, "2")], fun _ => [rA]⟩ = [rA] :=
  ⟨C7_reread_idempotent.1 ([rA], [rA]) rA (by decide),
   C7_reread_idempotent.2.1 ([rB], [rB]) [rB]
     (by intro d hd; rw [List.mem_singleton.mp hd]; decide),
   C7_reread_idempotent.2.2.1 [rA] [[rB]] [rB] (Or.inr (by decide)),
   C7_reread_idempotent.2.2.2 ⟨[rA], [(true, "2")], fun _ => [rA]⟩ 2 (by decide)
     (by intro x hx; rw [List.mem_singleton.mp hx]; decide)⟩

theorem foldl_optStep_ne_nil (raw : List (Bool × String)) :
    ∀ acc : List String, (∀ s ∈ acc, s ≠ "") →
      ∀ s ∈ raw.foldl optStep acc, s ≠ "" := by
  induction raw with
  | nil => intro acc h; exact h
  | cons p t ih =>
      intro acc h
      refine ih (optStep acc p) ?_
      intro s hs
      unfold optStep at hs
      split_ifs at hs with h1 h2
      · rcases List.mem_append.mp hs with hs | hs
        · exact h s hs
        · rw [List.mem_singleton.mp hs]
          exact h2.1
      · exact h s hs
      · exact h s hs

theorem mem_get_dropdown_options_ne_nil (raw : List (Bool × String)) :
    ∀ s ∈ get_dropdown_options raw, s ≠ "" :=
  foldl_optStep_ne_nil raw [] (fun s hs => absurd hs (List.not_mem_nil s))

theorem applyLimit_nil : ∀ lim : Option Nat, applyLimit lim [] = []
  | none => rfl
  | some _ => by
      simp only [applyLimit]
      split_ifs <;> simp

theorem applyLimit_some_of_ne {k : Nat} (xs : List String) (hk : k ≠ 0) :
    applyLimit (some k) xs = xs.take k := by
  simp only [applyLimit, if_pos hk]

theorem mem_applyLimit {lim : Option Nat} {xs : List String} {s : String}
    (h : s ∈ applyLimit lim xs) : s ∈ xs := by
  rcases lim with _ | k
  · exact h
  · simp only [applyLimit] at h
    split_ifs at h with hk
    · exact List.mem_of_mem_take h
    · exact h

theorem applyLimit_length_le {lim : Option Nat} {xs : List String} {d : Nat}
    (h : xs.length ≤ d) : (applyLimit lim xs).length ≤ dimBound lim d := by
  rcases lim with _ | k
  · exact h
  · simp only [applyLimit, dimBound]
    split_ifs with hk
    · rw [List.length_take]
      exact min_le_left _ _
    · exact h

theorem length_flatMap_le {α β : Type} (l : List α) (f : α → List β) (B : Nat)
    (h : ∀ x ∈ l, (f x).length ≤ B) :
    (l.flatMap f).length ≤ l.length * B := by
  induction l with
  | nil => simp
  | cons x t ih =>
      have hx := h x (List.mem_cons_self x t)
      have ht := ih fun y hy => h y (List.mem_cons_of_mem _ hy)
      rw [List.flatMap_cons, List.length_append, List.length_cons]
      calc (f x).length + (t.flatMap f).length ≤ B + t.length * B := by omega
        _ = (t.length + 1) * B := by ring

theorem flatMap_filter_congr {α β : Type} (p : β → Bool) (l : List α)
    (f g : α → List β) (h : ∀ x ∈ l, g x = (f x).filter p) :
    l.flatMap g = (l.flatMap f).filter p := by
  induction l with
  | nil => simp
  | cons x t ih =>
      rw [List.flatMap_cons, List.flatMap_cons, List.filter_append,
        h x (List.mem_cons_self x t),
        ih fun y hy => h y (List.mem_cons_of_mem _ hy)]

theorem mem_territoryBody {ui : ExplorerUI} {lim : FilterLimits}
    {x y z w : String} {c : FilterChain}
    (h : c ∈ territoryBody ui lim x y z w) :
    c.region = x ∧ c.area = y ∧ c.distributor = z ∧ c.territory = w
    ∧ c.point ∈ applyLimit lim.point
        (get_dropdown_options (ui.rawPoints x y z w)) := by
  unfold territoryBody at h
  split_ifs at h with hg
  · obtain ⟨point, hpt, rfl⟩ := List.mem_map.mp h
    exact ⟨rfl, rfl, rfl, rfl, hpt⟩
  · exact absurd h (List.not_mem_nil c)

theorem mem_distributorBody {ui : ExplorerUI} {lim : FilterLimits}
    {x y z : String} {c : FilterChain}
    (h : c ∈ distributorBody ui lim x y z) :
    c.region = x ∧ c.area = y ∧ c.distributor = z
    ∧ c.territory ∈ applyLimit lim.territory
        (get_dropdown_options (ui.rawTerritories x y z))
    ∧ c.point ∈ applyLimit lim.point
        (get_dropdown_options (ui.rawPoints x y z c.territory)) := by
  unfold distributorBody at h
  split_ifs at h with hg
  · obtain ⟨w, hw, hc⟩ := List.mem_flatMap.mp h
    obtain ⟨h1, h2, h3, h4, h5⟩ := mem_territoryBody hc
    rw [← h4] at hw h5
    exact ⟨h1, h2, h3, hw, h5⟩
  · exact absurd h (List.not_mem_nil c)

theorem mem_areaBody {ui : ExplorerUI} {lim : FilterLimits}
    {x y : String} {c : FilterChain} (h : c ∈ areaBody ui lim x y) :
    c.region = x ∧ c.area = y
    ∧ c.distributor ∈ applyLimit lim.distributor
        (get_dropdown_options (ui.rawDistributors x y))
    ∧ c.territory ∈ applyLimit lim.territory
        (get_dropdown_options (ui.rawTerritories x y c.distributor))
    ∧ c.point ∈ applyLimit lim.point
        (get_dropdown_options (ui.rawPoints x y c.distributor c.territory)) := by
  unfold areaBody at h
  split_ifs at h with hg
  · obtain ⟨z, hz, hc⟩ := List.mem_flatMap.mp h
    obtain ⟨h1, h2, h3, h4, h5⟩ := mem_distributorBody hc
    rw [← h3] at hz h4 h5
    exact ⟨h1, h2, hz, h4, h5⟩
  · exact absurd h (List.not_mem_nil c)

theorem mem_regionBody {ui : ExplorerUI} {lim : FilterLimits}
    {x : String} {c : FilterChain} (h : c ∈ regionBody ui lim x) :
    c.region = x
    ∧ c.area ∈ applyLimit lim.area (get_dropdown_options (ui.rawAreas x))
    ∧ c.distributor ∈ applyLimit lim.distributor
        (get_dropdown_options (ui.rawDistributors x c.area))
    ∧ c.territory ∈ applyLimit lim.territory
        (get_dropdown_options (ui.rawTerritories x c.area c.distributor))
    ∧ c.point ∈ applyLimit lim.point
        (get_dropdown_options
          (ui.rawPoints x c.area c.distributor c.territory)) := by
  unfold regionBody at h
  split_ifs at h with hg
  · obtain ⟨y, hy, hc⟩ := List.mem_flatMap.mp h
    obtain ⟨h1, h2, h3, h4, h5⟩ := mem_areaBody hc
    rw [← h2] at hy h3 h4 h5
    exact ⟨h1, hy, h3, h4, h5⟩
  · exact absurd h (List.not_mem_nil c)

theorem mem_build {ui : ExplorerUI} {lim : FilterLimits} {c : FilterChain}
    (h : c ∈ build_complete_filter_chains ui lim) :
    c.region ∈ applyLimit lim.region (get_dropdown_options ui.rawRegions)
    ∧ c.area ∈ applyLimit lim.area
        (get_dropdown_options (ui.rawAreas c.region))
    ∧ c.distributor ∈ applyLimit lim.distributor
        (get_dropdown_options (ui.rawDistributors c.region c.area))
    ∧ c.territory ∈ applyLimit lim.territory
        (get_dropdown_options
          (ui.rawTerritories c.region c.area c.distributor))
    ∧ c.point ∈ applyLimit lim.point
        (get_dropdown_options
          (ui.rawPoints c.region c.area c.distributor c.territory)) := by
  unfold build_complete_filter_chains at h
  split_ifs at h with hg
  · exact absurd h (List.not_mem_nil c)
  · obtain ⟨x, hx, hc⟩ := List.mem_flatMap.mp h
    obtain ⟨h1, h2, h3, h4, h5⟩ := mem_regionBody hc
    rw [← h1] at hx h2 h3 h4 h5
    exact ⟨hx, h2, h3, h4, h5⟩

/-- Claim C3: every chain emitted by `build_complete_filter_chains` has
a value for all 5 dimensions and each value is a non-empty string —
option texts are stripped at discovery time and empty/whitespace-only
texts are discarded by `get_dropdown_options`, and chains only carry
such option texts. -/
theorem C3_chain_completeness (ui : ExplorerUI) (lim : FilterLimits) :
    ∀ c ∈ build_complete_filter_chains ui lim,
      c.region ≠ "" ∧ c.area ≠ "" ∧ c.distributor ≠ ""
      ∧ c.territory ≠ "" ∧ c.point ≠ "" := by
  intro c hc
  obtain ⟨h1, h2, h3, h4, h5⟩ := mem_build hc
  exact ⟨mem_get_dropdown_options_ne_nil _ _ (mem_applyLimit h1),
    mem_get_dropdown_options_ne_nil _ _ (mem_applyLimit h2),
    mem_get_dropdown_options_ne_nil _ _ (mem_applyLimit h3),
    mem_get_dropdown_options_ne_nil _ _ (mem_applyLimit h4),
    mem_get_dropdown_options_ne_nil _ _ (mem_applyLimit h5)⟩

/-- Witness for C3: the one-branch UI emits the single chain
`(R1, A1, D1, T1, P1)`, whose 5 values are non-empty. -/
theorem C3_chain_completeness_check :
    (⟨"R1", "A1", "D1", "T1", "P1"⟩ : FilterChain).region ≠ ""
    ∧ (⟨"R1", "A1", "D1", "T1", "P1"⟩ : FilterChain).area ≠ ""
    ∧ (⟨"R1", "A1", "D1", "T1", "P1"⟩ : FilterChain).distributor ≠ ""
    ∧ (⟨"R1", "A1", "D1", "T1", "P1"⟩ : FilterChain).territory ≠ ""
    ∧ (⟨"R1", "A1", "D1", "T1", "P1"⟩ : FilterChain).point ≠ "" :=
  C3_chain_completeness uiOneBranch limNone
    ⟨"R1", "A1", "D1", "T1", "P1"⟩ (by decide)

/-- Claim C9: when the region dropdown yields no options, the Explorer
returns zero chains; `build_complete_filter_chains` is total, so this
terminal condition is reported (the empty chain list) rather than an
error. -/
theorem C9_empty_regions (ui : ExplorerUI) (lim : FilterLimits)
    (h : get_dropdown_options ui.rawRegions = []) :
    build_complete_filter_chains ui lim = [] := by
  unfold build_complete_filter_chains
  rw [h, applyLimit_nil]
  simp

/-- Witness for C9: the concrete UI with an empty region dropdown. -/
theorem C9_empty_regions_check :
    build_complete_filter_chains uiNoRegions limNone = [] :=
  C9_empty_regions uiNoRegions limNone (by decide)

/-- Claim C10: a `FILTER_LIMITS` entry of `0` is falsy in Python, so
`options[:k]` truncation is skipped exactly as for `None`: a zero cap
behaves as unbounded, on `applyLimit` directly and on the Explorer for
each of the 5 dimensions. -/
theorem C10_zero_cap_is_unbounded (ui : ExplorerUI) (lim : FilterLimits) :
    (∀ xs : List String, applyLimit (some 0) xs = applyLimit none xs)
    ∧ build_complete_filter_chains ui { lim with region := some 0 }
        = build_complete_filter_chains ui { lim with region := none }
    ∧ build_complete_filter_chains ui { lim with area := some 0 }
        = build_complete_filter_chains ui { lim with area := none }
    ∧ build_complete_filter_chains ui { lim with distributor := some 0 }
        = build_complete_filter_chains ui { lim with distributor := none }
    ∧ build_complete_filter_chains ui { lim with territory := some 0 }
        = build_complete_filter_chains ui { lim with territory := none }
    ∧ build_complete_filter_chains ui { lim with point := some 0 }
        = build_complete_filter_chains ui { lim with point := none } :=
  ⟨fun _ => rfl, rfl, rfl, rfl, rfl, rfl⟩

theorem territoryBody_length_le {ui : ExplorerUI} {lim : FilterLimits}
    {x y z w : String} {dP : Nat}
    (hP : (get_dropdown_options (ui.rawPoints x y z w)).length ≤ dP) :
    (territoryBody ui lim x y z w).length ≤ dimBound lim.point dP := by
  unfold territoryBody
  split_ifs
  · rw [List.length_map]
    exact applyLimit_length_le hP
  · exact Nat.zero_le _

theorem distributorBody_length_le {ui : ExplorerUI} {lim : FilterLimits}
    {x y z : String} {dT dP : Nat}
    (hT : (get_dropdown_options (ui.rawTerritories x y z)).length ≤ dT)
    (hP : ∀ w, (get_dropdown_options (ui.rawPoints x y z w)).length ≤ dP) :
    (distributorBody ui lim x y z).length
      ≤ dimBound lim.territory dT * dimBound lim.point dP := by
  unfold distributorBody
  split_ifs
  · calc ((applyLimit lim.territory
          (get_dropdown_options (ui.rawTerritories x y z))).flatMap
            (territoryBody ui lim x y z)).length
        ≤ (applyLimit lim.territory
            (get_dropdown_options (ui.rawTerritories x y z))).length
            * dimBound lim.point dP :=
          length_flatMap_le _ _ _ fun w _ => territoryBody_length_le (hP w)
      _ ≤ dimBound lim.territory dT * dimBound lim.point dP :=
          Nat.mul_le_mul_right _ (applyLimit_length_le hT)
  · exact Nat.zero_le _

theorem areaBody_length_le {ui : ExplorerUI} {lim : FilterLimits}
    {x y : String} {dD dT dP : Nat}
    (hD : (get_dropdown_options (ui.rawDistributors x y)).length ≤ dD)
    (hT : ∀ z, (get_dropdown_options (ui.rawTerritories x y z)).length ≤ dT)
    (hP : ∀ z w, (get_dropdown_options (ui.rawPoints x y z w)).length ≤ dP) :
    (areaBody ui lim x y).length
      ≤ dimBound lim.distributor dD
          * (dimBound lim.territory dT * dimBound lim.point dP) := by
  unfold areaBody
  split_ifs
  · calc ((applyLimit lim.distributor
          (get_dropdown_options (ui.rawDistributors x y))).flatMap
            (distributorBody ui lim x y)).length
        ≤ (applyLimit lim.distributor
            (get_dropdown_options (ui.rawDistributors x y))).length
            * (dimBound lim.territory dT * dimBound lim.point dP) :=
          length_flatMap_le _ _ _ fun z _ =>
            distributorBody_length_le (hT z) (hP z)
      _ ≤ dimBound lim.distributor dD
            * (dimBound lim.territory dT * dimBound lim.point dP) :=
          Nat.mul_le_mul_right _ (applyLimit_length_le hD)
  · exact Nat.zero_le _

theorem regionBody_length_le {ui : ExplorerUI} {lim : FilterLimits}
    {x : String} {dA dD dT dP : Nat}
    (hA : (get_dropdown_options (ui.rawAreas x)).length ≤ dA)
    (hD : ∀ y, (get_dropdown_options (ui.rawDistributors x y)).length ≤ dD)
    (hT : ∀ y z, (get_dropdown_options (ui.rawTerritories x y z)).length ≤ dT)
    (hP : ∀ y z w, (get_dropdown_options (ui.rawPoints x y z w)).length ≤ dP) :
    (regionBody ui lim x).length
      ≤ dimBound lim.area dA * (dimBound lim.distributor dD
          * (dimBound lim.territory dT * dimBound lim.point dP)) := by
  unfold regionBody
  split_ifs
  · calc ((applyLimit lim.area
          (get_dropdown_options (ui.rawAreas x))).flatMap
            (areaBody ui lim x)).length
        ≤ (applyLimit lim.area
            (get_dropdown_options (ui.rawAreas x))).length
            * (dimBound lim.distributor dD
                * (dimBound lim.territory dT * dimBound lim.point dP)) :=
          length_flatMap_le _ _ _ fun y _ =>
            areaBody_length_le (hD y) (hT y) (hP y)
      _ ≤ dimBound lim.area dA * (dimBound lim.distributor dD
            * (dimBound lim.territory dT * dimBound lim.point dP)) :=
          Nat.mul_le_mul_right _ (applyLimit_length_le hA)
  · exact Nat.zero_le _

/-- Claim C4: with a nonzero cap `k` on any dimension, only the first
`k` options of that dimension (in the discovery order of its context's
option list) are explored: every emitted chain's value for a capped
dimension lies in the first `k` options discovered under that chain's
own upstream prefix — and the total number of emitted chains is
bounded by the product over the 5 dimensions of (cap where set,
per-context domain bound where uncapped). -/
theorem C4_cap_enforcement (ui : ExplorerUI) (lim : FilterLimits)
    (dR dA dD dT dP : Nat)
    (hR : (get_dropdown_options ui.rawRegions).length ≤ dR)
    (hA : ∀ x, (get_dropdown_options (ui.rawAreas x)).length ≤ dA)
    (hD : ∀ x y, (get_dropdown_options (ui.rawDistributors x y)).length ≤ dD)
    (hT : ∀ x y z,
      (get_dropdown_options (ui.rawTerritories x y z)).length ≤ dT)
    (hP : ∀ x y z w,
      (get_dropdown_options (ui.rawPoints x y z w)).length ≤ dP) :
    (build_complete_filter_chains ui lim).length
      ≤ dimBound lim.region dR * dimBound lim.area dA
          * dimBound lim.distributor dD * dimBound lim.territory dT
          * dimBound lim.point dP
    ∧ (∀ k, lim.region = some k → k ≠ 0 →
        ∀ c ∈ build_complete_filter_chains ui lim,
          c.region ∈ (get_dropdown_options ui.rawRegions).take k)
    ∧ (∀ k, lim.area = some k → k ≠ 0 →
        ∀ c ∈ build_complete_filter_chains ui lim,
          c.area ∈ (get_dropdown_options (ui.rawAreas c.region)).take k)
    ∧ (∀ k, lim.distributor = some k → k ≠ 0 →
        ∀ c ∈ build_complete_filter_chains ui lim,
          c.distributor
            ∈ (get_dropdown_options
                (ui.rawDistributors c.region c.area)).take k)
    ∧ (∀ k, lim.territory = some k → k ≠ 0 →
        ∀ c ∈ build_complete_filter_chains ui lim,
          c.territory
            ∈ (get_dropdown_options
                (ui.rawTerritories c.region c.area c.distributor)).take k)
    ∧ (∀ k, lim.point = some k → k ≠ 0 →
        ∀ c ∈ build_complete_filter_chains ui lim,
          c.point
            ∈ (get_dropdown_options
                (ui.rawPoints c.region c.area c.distributor
                  c.territory)).take k) := by
  refine ⟨?_, ?_, ?_, ?_, ?_, ?_⟩
  · have hmain : (build_complete_filter_chains ui lim).length
        ≤ dimBound lim.region dR * (dimBound lim.area dA
            * (dimBound lim.distributor dD
                * (dimBound lim.territory dT * dimBound lim.point dP))) := by
      unfold build_complete_filter_chains
      split_ifs
      · exact Nat.zero_le _
      · calc ((applyLimit lim.region
              (get_dropdown_options ui.rawRegions)).flatMap
                (regionBody ui lim)).length
            ≤ (applyLimit lim.region
                (get_dropdown_options ui.rawRegions)).length
                * (dimBound lim.area dA * (dimBound lim.distributor dD
                    * (dimBound lim.territory dT * dimBound lim.point dP))) :=
              length_flatMap_le _ _ _ fun x _ =>
                regionBody_length_le (hA x) (hD x) (hT x) (hP x)
          _ ≤ dimBound lim.region dR * (dimBound lim.area dA
                * (dimBound lim.distributor dD
                    * (dimBound lim.territory dT * dimBound lim.point dP))) :=
              Nat.mul_le_mul_right _ (applyLimit_length_le hR)
    calc (build_complete_filter_chains ui lim).length
        ≤ dimBound lim.region dR * (dimBound lim.area dA
            * (dimBound lim.distributor dD
                * (dimBound lim.territory dT * dimBound lim.point dP))) := hmain
      _ = dimBound lim.region dR * dimBound lim.area dA
            * dimBound lim.distributor dD * dimBound lim.territory dT
            * dimBound lim.point dP := by ring
  · intro k hk hknz c hc
    have h1 := (mem_build hc).1
    rwa [hk, applyLimit_some_of_ne _ hknz] at h1
  · intro k hk hknz c hc
    have h2 := (mem_build hc).2.1
    rwa [hk, applyLimit_some_of_ne _ hknz] at h2
  · intro k hk hknz c hc
    have h3 := (mem_build hc).2.2.1
    rwa [hk, applyLimit_some_of_ne _ hknz] at h3
  · intro k hk hknz c hc
    have h4 := (mem_build hc).2.2.2.1
    rwa [hk, applyLimit_some_of_ne _ hknz] at h4
  · intro k hk hknz c hc
    have h5 := (mem_build hc).2.2.2.2
    rwa [hk, applyLimit_some_of_ne _ hknz] at h5

/-- Witness for C4: with three regions and region cap 2, the chain
count is bounded by `2 * 1 * 1 * 1 * 1` and every emitted region is
among the first 2 discovered ones; with two points and point cap 1,
the emitted point is among the first 1 discovered under its prefix. -/
theorem C4_cap_enforcement_check :
    (build_complete_filter_chains uiThreeRegions limRegion2).length
      ≤ dimBound (some 2) 3 * dimBound none 1 * dimBound none 1
          * dimBound none 1 * dimBound none 1
    ∧ ("R1" : String)
        ∈ (get_dropdown_options uiThreeRegions.rawRegions).take 2
    ∧ ("P1" : String)
        ∈ (get_dropdown_options
            (uiTwoPoints.rawPoints "R1" "A1" "D1" "T1")).take 1 :=
  ⟨(C4_cap_enforcement uiThreeRegions limRegion2 3 1 1 1 1 (by decide)
      (fun _ =>
        (by decide : (get_dropdown_options [(true, "A1")]).length ≤ 1))
      (fun _ _ =>
        (by decide : (get_dropdown_options [(true, "D1")]).length ≤ 1))
      (fun _ _ _ =>
        (by decide : (get_dropdown_options [(true, "T1")]).length ≤ 1))
      (fun _ _ _ _ =>
        (by decide : (get_dropdown_options [(true, "P1")]).length ≤ 1))).1,
   (C4_cap_enforcement uiThreeRegions limRegion2 3 1 1 1 1 (by decide)
      (fun _ =>
        (by decide : (get_dropdown_options [(true, "A1")]).length ≤ 1))
      (fun _ _ =>
        (by decide : (get_dropdown_options [(true, "D1")]).length ≤ 1))
      (fun _ _ _ =>
        (by decide : (get_dropdown_options [(true, "T1")]).length ≤ 1))
      (fun _ _ _ _ =>
        (by decide : (get_dropdown_options [(true, "P1")]).length ≤ 1))).2.1
      2 rfl (by decide) ⟨"R1", "A1", "D1", "T1", "P1"⟩ (by decide),
   (C4_cap_enforcement uiTwoPoints limPoint1 1 1 1 1 2 (by decide)
      (fun _ =>
        (by decide : (get_dropdown_options [(true, "A1")]).length ≤ 1))
      (fun _ _ =>
        (by decide : (get_dropdown_options [(true, "D1")]).length ≤ 1))
      (fun _ _ _ =>
        (by decide : (get_dropdown_options [(true, "T1")]).length ≤ 1))
      (fun _ _ _ _ =>
        (by decide :
          (get_dropdown_options
            [(true, "P1"), (true, "P2")]).length ≤ 2))).2.2.2.2.2
      1 rfl (by decide) ⟨"R1", "A1", "D1", "T1", "P1"⟩ (by decide)⟩

theorem filter_of_all_true {α : Type} (p : α → Bool) (l : List α)
    (h : ∀ x ∈ l, p x = true) : l.filter p = l :=
  List.filter_eq_self.mpr h

theorem filter_of_all_false {α : Type} (p : α → Bool) (l : List α)
    (h : ∀ x ∈ l, p x = false) : l.filter p = [] := by
  rw [List.filter_eq_nil_iff]
  intro a ha
  simp [h a ha]

theorem territoryBody_failRegion {ui : ExplorerUI} {r x : String}
    (lim : FilterLimits) (hx : x ≠ r) :
    territoryBody (failRegionAt ui r) lim x = territoryBody ui lim x := by
  have hs : (failRegionAt ui r).selRegion x = ui.selRegion x := by
    simp only [failRegionAt, if_neg hx]
  have hA : (failRegionAt ui r).selArea = ui.selArea := rfl
  have hD : (failRegionAt ui r).selDistributor = ui.selDistributor := rfl
  have hT : (failRegionAt ui r).selTerritory = ui.selTerritory := rfl
  have hRP : (failRegionAt ui r).rawPoints = ui.rawPoints := rfl
  funext y z w
  simp only [territoryBody, hs, hA, hD, hT, hRP]

theorem distributorBody_failRegion {ui : ExplorerUI} {r x : String}
    (lim : FilterLimits) (hx : x ≠ r) :
    distributorBody (failRegionAt ui r) lim x = distributorBody ui lim x := by
  have hs : (failRegionAt ui r).selRegion x = ui.selRegion x := by
    simp only [failRegionAt, if_neg hx]
  have hA : (failRegionAt ui r).selArea = ui.selArea := rfl
  have hD : (failRegionAt ui r).selDistributor = ui.selDistributor := rfl
  have hRT : (failRegionAt ui r).rawTerritories = ui.rawTerritories := rfl
  funext y z
  simp only [distributorBody, hs, hA, hD, hRT, territoryBody_failRegion lim hx]

theorem areaBody_failRegion {ui : ExplorerUI} {r x : String}
    (lim : FilterLimits) (hx : x ≠ r) :
    areaBody (failRegionAt ui r) lim x = areaBody ui lim x := by
  have hs : (failRegionAt ui r).selRegion x = ui.selRegion x := by
    simp only [failRegionAt, if_neg hx]
  have hA : (failRegionAt ui r).selArea = ui.selArea := rfl
  have hRD : (failRegionAt ui r).rawDistributors = ui.rawDistributors := rfl
  funext y
  simp only [areaBody, hs, hA, hRD, distributorBody_failRegion lim hx]

theorem regionBody_failRegion {ui : ExplorerUI} {r x : String}
    (lim : FilterLimits) (hx : x ≠ r) :
    regionBody (failRegionAt ui r) lim x = regionBody ui lim x := by
  have hs : (failRegionAt ui r).selRegion x = ui.selRegion x := by
    simp only [failRegionAt, if_neg hx]
  have hRA : (failRegionAt ui r).rawAreas = ui.rawAreas := rfl
  simp only [regionBody, hs, hRA, areaBody_failRegion lim hx]

theorem regionBody_failRegion_self (ui : ExplorerUI) (lim : FilterLimits)
    (r : String) : regionBody (failRegionAt ui r) lim r = [] := by
  have hs : (failRegionAt ui r).selRegion r = false := by
    simp [failRegionAt]
  simp [regionBody, hs]

theorem territoryBody_failArea {ui : ExplorerUI} {r a x y : String}
    (lim : FilterLimits) (hxy : ¬(x = r ∧ y = a)) :
    territoryBody (failAreaAt ui r a) lim x y = territoryBody ui lim x y := by
  have hs : (failAreaAt ui r a).selArea x y = ui.selArea x y := by
    simp only [failAreaAt, if_neg hxy]
  have hR : (failAreaAt ui r a).selRegion = ui.selRegion := rfl
  have hD : (failAreaAt ui r a).selDistributor = ui.selDistributor := rfl
  have hT : (failAreaAt ui r a).selTerritory = ui.selTerritory := rfl
  have hRP : (failAreaAt ui r a).rawPoints = ui.rawPoints := rfl
  funext z w
  simp only [territoryBody, hs, hR, hD, hT, hRP]

theorem distributorBody_failArea {ui : ExplorerUI} {r a x y : String}
    (lim : FilterLimits) (hxy : ¬(x = r ∧ y = a)) :
    distributorBody (failAreaAt ui r a) lim x y
      = distributorBody ui lim x y := by
  have hs : (failAreaAt ui r a).selArea x y = ui.selArea x y := by
    simp only [failAreaAt, if_neg hxy]
  have hR : (failAreaAt ui r a).selRegion = ui.selRegion := rfl
  have hD : (failAreaAt ui r a).selDistributor = ui.selDistributor := rfl
  have hRT : (failAreaAt ui r a).rawTerritories = ui.rawTerritories := rfl
  funext z
  simp only [distributorBody, hs, hR, hD, hRT, territoryBody_failArea lim hxy]

theorem areaBody_failArea_ne {ui : ExplorerUI} {r a x y : String}
    (lim : FilterLimits) (hxy : ¬(x = r ∧ y = a)) :
    areaBody (failAreaAt ui r a) lim x y = areaBody ui lim x y := by
  have hs : (failAreaAt ui r a).selArea x y = ui.selArea x y := by
    simp only [failAreaAt, if_neg hxy]
  have hR : (failAreaAt ui r a).selRegion = ui.selRegion := rfl
  have hRD : (failAreaAt ui r a).rawDistributors = ui.rawDistributors := rfl
  simp only [areaBody, hs, hR, hRD, distributorBody_failArea lim hxy]

theorem areaBody_failArea_self (ui : ExplorerUI) (lim : FilterLimits)
    (r a : String) : areaBody (failAreaAt ui r a) lim r a = [] := by
  have hs : (failAreaAt ui r a).selArea r a = false := by
    simp [failAreaAt]
  simp [areaBody, hs]

theorem territoryBody_failDistributor {ui : ExplorerUI} {r a d x y z : String}
    (lim : FilterLimits) (hxyz : ¬(x = r ∧ y = a ∧ z = d)) :
    territoryBody (failDistributorAt ui r a d) lim x y z
      = territoryBody ui lim x y z := by
  have hs : (failDistributorAt ui r a d).selDistributor x y z
      = ui.selDistributor x y z := by
    simp only [failDistributorAt, if_neg hxyz]
  have hR : (failDistributorAt ui r a d).selRegion = ui.selRegion := rfl
  have hA : (failDistributorAt ui r a d).selArea = ui.selArea := rfl
  have hT : (failDistributorAt ui r a d).selTerritory = ui.selTerritory := rfl
  have hRP : (failDistributorAt ui r a d).rawPoints = ui.rawPoints := rfl
  funext w
  simp only [territoryBody, hs, hR, hA, hT, hRP]

theorem distributorBody_failDistributor_ne {ui : ExplorerUI}
    {r a d x y z : String} (lim : FilterLimits)
    (hxyz : ¬(x = r ∧ y = a ∧ z = d)) :
    distributorBody (failDistributorAt ui r a d) lim x y z
      = distributorBody ui lim x y z := by
  have hs : (failDistributorAt ui r a d).selDistributor x y z
      = ui.selDistributor x y z := by
    simp only [failDistributorAt, if_neg hxyz]
  have hR : (failDistributorAt ui r a d).selRegion = ui.selRegion := rfl
  have hA : (failDistributorAt ui r a d).selArea = ui.selArea := rfl
  have hRT : (failDistributorAt ui r a d).rawTerritories
      = ui.rawTerritories := rfl
  simp only [distributorBody, hs, hR, hA, hRT,
    territoryBody_failDistributor lim hxyz]

theorem distributorBody_failDistributor_self (ui : ExplorerUI)
    (lim : FilterLimits) (r a d : String) :
    distributorBody (failDistributorAt ui r a d) lim r a d = [] := by
  have hs : (failDistributorAt ui r a d).selDistributor r a d = false := by
    simp [failDistributorAt]
  simp [distributorBody, hs]

theorem territoryBody_failTerritory_ne {ui : ExplorerUI}
    {r a d t x y z w : String} (lim : FilterLimits)
    (hx : ¬(x = r ∧ y = a ∧ z = d ∧ w = t)) :
    territoryBody (failTerritoryAt ui r a d t) lim x y z w
      = territoryBody ui lim x y z w := by
  have hs : (failTerritoryAt ui r a d t).selTerritory x y z w
      = ui.selTerritory x y z w := by
    simp only [failTerritoryAt, if_neg hx]
  have hR : (failTerritoryAt ui r a d t).selRegion = ui.selRegion := rfl
  have hA : (failTerritoryAt ui r a d t).selArea = ui.selArea := rfl
  have hD : (failTerritoryAt ui r a d t).selDistributor
      = ui.selDistributor := rfl
  have hRP : (failTerritoryAt ui r a d t).rawPoints = ui.rawPoints := rfl
  simp only [territoryBody, hs, hR, hA, hD, hRP]

theorem territoryBody_failTerritory_self (ui : ExplorerUI)
    (lim : FilterLimits) (r a d t : String) :
    territoryBody (failTerritoryAt ui r a d t) lim r a d t = [] := by
  have hs : (failTerritoryAt ui r a d t).selTerritory r a d t = false := by
    simp [failTerritoryAt]
  simp [territoryBody, hs]

theorem build_failRegion (ui : ExplorerUI) (lim : FilterLimits) (r : String) :
    build_complete_filter_chains (failRegionAt ui r) lim
      = (build_complete_filter_chains ui lim).filter
          (fun c => decide (c.region ≠ r)) := by
  have hraw : (failRegionAt ui r).rawRegions = ui.rawRegions := rfl
  unfold build_complete_filter_chains
  rw [hraw]
  by_cases hreg : applyLimit lim.region (get_dropdown_options ui.rawRegions) = []
  · rw [if_pos hreg, if_pos hreg, List.filter_nil]
  · rw [if_neg hreg, if_neg hreg]
    refine flatMap_filter_congr _ _ _ _ ?_
    intro x _
    by_cases hxr : x = r
    · subst hxr
      rw [regionBody_failRegion_self, filter_of_all_false]
      intro c hc
      have h1 := (mem_regionBody hc).1
      simp [h1]
    · rw [regionBody_failRegion lim hxr, filter_of_all_true]
      intro c hc
      have h1 := (mem_regionBody hc).1
      simp [h1, hxr]

theorem build_failArea (ui : ExplorerUI) (lim : FilterLimits) (r a : String) :
    build_complete_filter_chains (failAreaAt ui r a) lim
      = (build_complete_filter_chains ui lim).filter
          (fun c => decide (¬(c.region = r ∧ c.area = a))) := by
  have hraw : (failAreaAt ui r a).rawRegions = ui.rawRegions := rfl
  have hbody : ∀ x, regionBody (failAreaAt ui r a) lim x
      = (regionBody ui lim x).filter
          (fun c => decide (¬(c.region = r ∧ c.area = a))) := by
    intro x
    have hR : (failAreaAt ui r a).selRegion = ui.selRegion := rfl
    have hRA : (failAreaAt ui r a).rawAreas = ui.rawAreas := rfl
    unfold regionBody
    rw [hR, hRA]
    by_cases hg : ui.selRegion x = true
    · rw [if_pos hg, if_pos hg]
      refine flatMap_filter_congr _ _ _ _ ?_
      intro y _
      by_cases hxy : x = r ∧ y = a
      · obtain ⟨rfl, rfl⟩ := hxy
        rw [areaBody_failArea_self, filter_of_all_false]
        intro c hc
        obtain ⟨h1, h2, _⟩ := mem_areaBody hc
        simp [h1, h2]
      · rw [areaBody_failArea_ne lim hxy, filter_of_all_true]
        intro c hc
        obtain ⟨h1, h2, _⟩ := mem_areaBody hc
        simp only [h1, h2]
        simp only [decide_eq_true_eq]
        exact hxy
    · rw [if_neg hg, if_neg hg, List.filter_nil]
  unfold build_complete_filter_chains
  rw [hraw]
  by_cases hreg : applyLimit lim.region (get_dropdown_options ui.rawRegions) = []
  · rw [if_pos hreg, if_pos hreg, List.filter_nil]
  · rw [if_neg hreg, if_neg hreg]
    exact flatMap_filter_congr _ _ _ _ fun x _ => hbody x

theorem build_failDistributor (ui : ExplorerUI) (lim : FilterLimits)
    (r a d : String) :
    build_complete_filter_chains (failDistributorAt ui r a d) lim
      = (build_complete_filter_chains ui lim).filter
          (fun c =>
            decide (¬(c.region = r ∧ c.area = a ∧ c.distributor = d))) := by
  have hraw : (failDistributorAt ui r a d).rawRegions = ui.rawRegions := rfl
  have harea : ∀ x y, areaBody (failDistributorAt ui r a d) lim x y
      = (areaBody ui lim x y).filter
          (fun c =>
            decide (¬(c.region = r ∧ c.area = a ∧ c.distributor = d))) := by
    intro x y
    have hR : (failDistributorAt ui r a d).selRegion = ui.selRegion := rfl
    have hA : (failDistributorAt ui r a d).selArea = ui.selArea := rfl
    have hRD : (failDistributorAt ui r a d).rawDistributors
        = ui.rawDistributors := rfl
    unfold areaBody
    rw [hR, hA, hRD]
    by_cases hg : (ui.selRegion x && ui.selArea x y) = true
    · rw [if_pos hg, if_pos hg]
      refine flatMap_filter_congr _ _ _ _ ?_
      intro z _
      by_cases hxyz : x = r ∧ y = a ∧ z = d
      · obtain ⟨rfl, rfl, rfl⟩ := hxyz
        rw [distributorBody_failDistributor_self, filter_of_all_false]
        intro c hc
        obtain ⟨h1, h2, h3, _⟩ := mem_distributorBody hc
        simp [h1, h2, h3]
      · rw [distributorBody_failDistributor_ne lim hxyz, filter_of_all_true]
        intro c hc
        obtain ⟨h1, h2, h3, _⟩ := mem_distributorBody hc
        simp only [h1, h2, h3]
        simp only [decide_eq_true_eq]
        exact hxyz
    · rw [if_neg hg, if_neg hg, List.filter_nil]
  have hbody : ∀ x, regionBody (failDistributorAt ui r a d) lim x
      = (regionBody ui lim x).filter
          (fun c =>
            decide (¬(c.region = r ∧ c.area = a ∧ c.distributor = d))) := by
    intro x
    have hR : (failDistributorAt ui r a d).selRegion = ui.selRegion := rfl
    have hRA : (failDistributorAt ui r a d).rawAreas = ui.rawAreas := rfl
    unfold regionBody
    rw [hR, hRA]
    by_cases hg : ui.selRegion x = true
    · rw [if_pos hg, if_pos hg]
      exact flatMap_filter_congr _ _ _ _ fun y _ => harea x y
    · rw [if_neg hg, if_neg hg, List.filter_nil]
  unfold build_complete_filter_chains
  rw [hraw]
  by_cases hreg : applyLimit lim.region (get_dropdown_options ui.rawRegions) = []
  · rw [if_pos hreg, if_pos hreg, List.filter_nil]
  · rw [if_neg hreg, if_neg hreg]
    exact flatMap_filter_congr _ _ _ _ fun x _ => hbody x

theorem build_failTerritory (ui : ExplorerUI) (lim : FilterLimits)
    (r a d t : String) :
    build_complete_filter_chains (failTerritoryAt ui r a d t) lim
      = (build_complete_filter_chains ui lim).filter
          (fun c => decide (¬(c.region = r ∧ c.area = a
              ∧ c.distributor = d ∧ c.territory = t))) := by
  have hraw : (failTerritoryAt ui r a d t).rawRegions = ui.rawRegions := rfl
  have hdist : ∀ x y z, distributorBody (failTerritoryAt ui r a d t) lim x y z
      = (distributorBody ui lim x y z).filter
          (fun c => decide (¬(c.region = r ∧ c.area = a
              ∧ c.distributor = d ∧ c.territory = t))) := by
    intro x y z
    have hR : (failTerritoryAt ui r a d t).selRegion = ui.selRegion := rfl
    have hA : (failTerritoryAt ui r a d t).selArea = ui.selArea := rfl
    have hD : (failTerritoryAt ui r a d t).selDistributor
        = ui.selDistributor := rfl
    have hRT : (failTerritoryAt ui r a d t).rawTerritories
        = ui.rawTerritories := rfl
    unfold distributorBody
    rw [hR, hA, hD, hRT]
    by_cases hg : (ui.selRegion x && ui.selArea x y
        && ui.selDistributor x y z) = true
    · rw [if_pos hg, if_pos hg]
      refine flatMap_filter_congr _ _ _ _ ?_
      intro w _
      by_cases hxw : x = r ∧ y = a ∧ z = d ∧ w = t
      · obtain ⟨rfl, rfl, rfl, rfl⟩ := hxw
        rw [territoryBody_failTerritory_self, filter_of_all_false]
        intro c hc
        obtain ⟨h1, h2, h3, h4, _⟩ := mem_territoryBody hc
        simp [h1, h2, h3, h4]
      · rw [territoryBody_failTerritory_ne lim hxw, filter_of_all_true]
        intro c hc
        obtain ⟨h1, h2, h3, h4, _⟩ := mem_territoryBody hc
        simp only [h1, h2, h3, h4]
        simp only [decide_eq_true_eq]
        exact hxw
    · rw [if_neg hg, if_neg hg, List.filter_nil]
  have harea : ∀ x y, areaBody (failTerritoryAt ui r a d t) lim x y
      = (areaBody ui lim x y).filter
          (fun c => decide (¬(c.region = r ∧ c.area = a
              ∧ c.distributor = d ∧ c.territory = t))) := by
    intro x y
    have hR : (failTerritoryAt ui r a d t).selRegion = ui.selRegion := rfl
    have hA : (failTerritoryAt ui r a d t).selArea = ui.selArea := rfl
    have hRD : (failTerritoryAt ui r a d t).rawDistributors
        = ui.rawDistributors := rfl
    unfold areaBody
    rw [hR, hA, hRD]
    by_cases hg : (ui.selRegion x && ui.selArea x y) = true
    · rw [if_pos hg, if_pos hg]
      exact flatMap_filter_congr _ _ _ _ fun z _ => hdist x y z
    · rw [if_neg hg, if_neg hg, List.filter_nil]
  have hbody : ∀ x, regionBody (failTerritoryAt ui r a d t) lim x
      = (regionBody ui lim x).filter
          (fun c => decide (¬(c.region = r ∧ c.area = a
              ∧ c.distributor = d ∧ c.territory = t))) := by
    intro x
    have hR : (failTerritoryAt ui r a d t).selRegion = ui.selRegion := rfl
    have hRA : (failTerritoryAt ui r a d t).rawAreas = ui.rawAreas := rfl
    unfold regionBody
    rw [hR, hRA]
    by_cases hg : ui.selRegion x = true
    · rw [if_pos hg, if_pos hg]
      exact flatMap_filter_congr _ _ _ _ fun y _ => harea x y
    · rw [if_neg hg, if_neg hg, List.filter_nil]
  unfold build_complete_filter_chains
  rw [hraw]
  by_cases hreg : applyLimit lim.region (get_dropdown_options ui.rawRegions) = []
  · rw [if_pos hreg, if_pos hreg, List.filter_nil]
  · rw [if_neg hreg, if_neg hreg]
    exact flatMap_filter_congr _ _ _ _ fun x _ => hbody x

/-- Claim C8: a failing selection skips exactly its own branch and
nothing else.  At each of the 4 selected levels, making the single
selection attempt for one value (under one prefix) fail turns the
Explorer's output into exactly the output of the fully-working UI with
the chains of that one branch filtered out — all sibling branches and
the rest of the exploration survive unchanged, and the run does not
abort. -/
theorem C8_selection_failure_skips_branch (ui : ExplorerUI)
    (lim : FilterLimits) (r a d t : String) :
    build_complete_filter_chains (failRegionAt ui r) lim
      = (build_complete_filter_chains ui lim).filter
          (fun c => decide (c.region ≠ r))
    ∧ build_complete_filter_chains (failAreaAt ui r a) lim
      = (build_complete_filter_chains ui lim).filter
          (fun c => decide (¬(c.region = r ∧ c.area = a)))
    ∧ build_complete_filter_chains (failDistributorAt ui r a d) lim
      = (build_complete_filter_chains ui lim).filter
          (fun c => decide (¬(c.region = r ∧ c.area = a ∧ c.distributor = d)))
    ∧ build_complete_filter_chains (failTerritoryAt ui r a d t) lim
      = (build_complete_filter_chains ui lim).filter
          (fun c => decide (¬(c.region = r ∧ c.area = a
              ∧ c.distributor = d ∧ c.territory = t))) :=
  ⟨build_failRegion ui lim r, build_failArea ui lim r a,
   build_failDistributor ui lim r a d, build_failTerritory ui lim r a d t⟩

end Prism
